import Mathlib

/-!
Verification of the fbmessenger data model (models.go).

The Go source declares plain structures for the Messenger Send API,
webhook callbacks and user profiles, together with fluent builder and
mutator functions.  Each Go struct is embedded as a Lean structure;
Go `string` becomes `String`, Go `int` becomes `Int`, a Go pointer or
nilable field becomes `Option`, and a Go slice becomes `List`.
Fluent mutators, which in Go mutate the receiver and return the same
pointer, are embedded as functions from the old record to the new
record (the returned value is the updated receiver).
-/

namespace Fbmessenger

/-- Recipient identifies the user to send to (models.go, `Recipient`).
Either Id or PhoneNumber is meant to be set, but not both; both are
`omitempty` strings whose zero value is the empty string. -/
structure Recipient where
  id : String
  phoneNumber : String
deriving Repr, DecidableEq

/-- Button represents a single button in a structured message using the
button template (models.go, `Button`).  Url and Payload are optional
(`omitempty`) strings. -/
structure Button where
  type : String
  title : String
  url : String
  payload : String
deriving Repr, DecidableEq

/-- MediaPayload holds the URL of media attached to a message
(models.go, `MediaPayload`). -/
structure MediaPayload where
  url : String
deriving Repr, DecidableEq

/-- ButtonPayload builds a structured message using the button template
(models.go, `ButtonPayload`). -/
structure ButtonPayload where
  templateType : String
  text : String
  buttons : List Button
deriving Repr, DecidableEq

/-- The Go `Attachment.Payload` field has type `interface\x7b\x7d`; the two
payload shapes actually stored by the source are `MediaPayload` and
`ButtonPayload`, so the embedding closes the interface over those two
variants. -/
inductive AttachmentPayload where
  | media (p : MediaPayload)
  | button (p : ButtonPayload)
deriving Repr, DecidableEq

/-- Attachment builds a message with attached media or a structured
message (models.go, `Attachment`). -/
structure Attachment where
  type : String
  payload : AttachmentPayload
deriving Repr, DecidableEq

/-- Message represents either a text message or a message with an
attachment (models.go, `Message`).  `Text` is an `omitempty` string;
`Attachment` is a nilable pointer, embedded as `Option`. -/
structure Message where
  text : String
  attachment : Option Attachment
deriving Repr, DecidableEq

/-- SendRequest is the top level structure representing any type of
message to send (models.go, `SendRequest`). -/
structure SendRequest where
  recipient : Recipient
  message : Message
  notificationType : String
deriving Repr, DecidableEq

/-- TextMessage creates a SendRequest containing a text message
(models.go, `TextMessage`).  All fields other than `Message.Text` keep
their Go zero values. -/
def TextMessage (text : String) : SendRequest :=
  { recipient := { id := "", phoneNumber := "" }
    message := { text := text, attachment := none }
    notificationType := "" }

/-- ImageMessage creates a SendRequest containing a message with an
image attachment holding a MediaPayload (models.go, `ImageMessage`). -/
def ImageMessage (url : String) : SendRequest :=
  { recipient := { id := "", phoneNumber := "" }
    message :=
      { text := ""
        attachment := some
          { type := "image"
            payload := AttachmentPayload.media { url := url } } }
    notificationType := "" }

/-- ButtonTemplateMessage creates a SendRequest containing text and
buttons (models.go, `ButtonTemplateMessage`).  The Go variadic
`buttons ...*Button` becomes a list parameter. -/
def ButtonTemplateMessage (text : String) (buttons : List Button) : SendRequest :=
  { recipient := { id := "", phoneNumber := "" }
    message :=
      { text := ""
        attachment := some
          { type := "template"
            payload := AttachmentPayload.button
              { templateType := "button", text := text, buttons := buttons } } }
    notificationType := "" }

/-- To sets the Recipient by user id (models.go, `SendRequest.To`).
The Go code assigns a whole `Recipient\x7bId: userId\x7d` literal, so the
phone-number field is reset to its zero value. -/
def SendRequest.To (sr : SendRequest) (userId : String) : SendRequest :=
  { sr with recipient := { id := userId, phoneNumber := "" } }

/-- ToPhoneNumber sets the Recipient by phone number (models.go,
`SendRequest.ToPhoneNumber`).  The Go code assigns a whole
`Recipient\x7bPhoneNumber: phoneNumber\x7d` literal, so the id field is reset
to its zero value. -/
def SendRequest.ToPhoneNumber (sr : SendRequest) (phoneNumber : String) : SendRequest :=
  { sr with recipient := { id := "", phoneNumber := phoneNumber } }

/-- Regular sets NotificationType to "REGULAR" (models.go,
`SendRequest.Regular`). -/
def SendRequest.Regular (sr : SendRequest) : SendRequest :=
  { sr with notificationType := "REGULAR" }

/-- SilentPush sets NotificationType to "SILENT_PUSH" (models.go,
`SendRequest.SilentPush`). -/
def SendRequest.SilentPush (sr : SendRequest) : SendRequest :=
  { sr with notificationType := "SILENT_PUSH" }

/-- NoPush sets NotificationType to "NO_PUSH" (models.go,
`SendRequest.NoPush`). -/
def SendRequest.NoPush (sr : SendRequest) : SendRequest :=
  { sr with notificationType := "NO_PUSH" }

/-- A recipient-identifier string field counts as set exactly when it is
non-empty: both fields carry the `omitempty` JSON tag, so the empty
string is the absent value. -/
def identifiersSet (r : Recipient) : Nat :=
  (if r.id = "" then 0 else 1) + (if r.phoneNumber = "" then 0 else 1)

/-- SendError indicates an error returned from the remote service
(models.go, `SendError`). -/
structure SendError where
  message : String
  type : String
  code : Int
  errorData : String
  fbTraceId : String
deriving Repr, DecidableEq

/-- SendResponse is returned when sending a SendRequest (models.go,
`SendResponse`).  The Go `Error` field is a nilable pointer, embedded
as `Option`. -/
structure SendResponse where
  recipientId : String
  messageId : String
  error : Option SendError
deriving Repr, DecidableEq

/-- Principal holds the Id of a sender or recipient (models.go,
`Principal`). -/
structure Principal where
  id : String
deriving Repr, DecidableEq

/-- CallbackAttachmentPayload holds the URL of an attachment sent by
the user (models.go, `CallbackAttachmentPayload`). -/
structure CallbackAttachmentPayload where
  url : String
deriving Repr, DecidableEq

/-- CallbackAttachment holds the type and payload of an attachment sent
by a user (models.go, `CallbackAttachment`). -/
structure CallbackAttachment where
  type : String
  payload : CallbackAttachmentPayload
deriving Repr, DecidableEq

/-- CallbackMessage represents a message a user has sent to the page
(models.go, `CallbackMessage`).  A nil Go slice is embedded as the
empty list. -/
structure CallbackMessage where
  messageId : String
  sequence : Int
  text : String
  attachments : List CallbackAttachment
deriving Repr, DecidableEq

/-- Delivery holds information about which sent messages have been
delivered (models.go, `Delivery`). -/
structure Delivery where
  messageIds : List String
  watermark : Int
  sequence : Int
deriving Repr, DecidableEq

/-- Postback holds the data defined for buttons the user taps
(models.go, `Postback`). -/
structure Postback where
  payload : String
deriving Repr, DecidableEq

/-- OptIn holds the data defined for the Send-to-Messenger plugin
(models.go, `OptIn`). -/
structure OptIn where
  ref : String
deriving Repr, DecidableEq

/-- MessagingEntry is an individual interaction a user has with a page
(models.go, `MessagingEntry`).  The four interaction-specific fields
are nilable pointers in Go, embedded as `Option`; the upstream contract
is that exactly one of them is populated. -/
structure MessagingEntry where
  sender : Principal
  recipient : Principal
  timestamp : Int
  message : Option CallbackMessage
  delivery : Option Delivery
  postback : Option Postback
  optin : Option OptIn
deriving Repr, DecidableEq

/-- Entry is part of the common format of callbacks (models.go,
`Entry`). -/
structure Entry where
  pageId : String
  time : Int
  messaging : List MessagingEntry
deriving Repr, DecidableEq

/-- Callback is the top level structure representing a callback
received by the webhook endpoint (models.go, `Callback`). -/
structure Callback where
  object : String
  entries : List Entry
deriving Repr, DecidableEq

/-- C1 (counterexample): as stated the claim fails for the empty string.
`To` with the empty id leaves both recipient-identifier fields empty, so
zero fields are set, not exactly one. -/
theorem To_empty_id_sets_no_identifier :
    identifiersSet (((TextMessage "hi").To "").recipient) = 0 ∧
    identifiersSet (((TextMessage "hi").To "").recipient) ≠ 1 := by
  decide

/-- C1 (amended): `To` returns the request with the id field set to the
given id and the phone-number field cleared, `ToPhoneNumber` is
symmetric, and whenever the identifier string supplied is non-empty,
exactly one recipient-identifier field is set afterwards. -/
theorem To_and_ToPhoneNumber_set_one_identifier
    (sr : SendRequest) (id p : String) :
    sr.To id = { sr with recipient := { id := id, phoneNumber := "" } } ∧
    sr.ToPhoneNumber p = { sr with recipient := { id := "", phoneNumber := p } } ∧
    (id ≠ "" → identifiersSet (sr.To id).recipient = 1) ∧
    (p ≠ "" → identifiersSet (sr.ToPhoneNumber p).recipient = 1) := by
  refine ⟨rfl, rfl, ?_, ?_⟩ <;> intro h <;>
    simp [SendRequest.To, SendRequest.ToPhoneNumber, identifiersSet, h]

/-- C1 (witness): the amended theorem at a concrete request, id and
phone number. -/
theorem To_and_ToPhoneNumber_set_one_identifier_witness :
    (TextMessage "hi").To "USER_ID" =
      { TextMessage "hi" with recipient := { id := "USER_ID", phoneNumber := "" } } ∧
    (TextMessage "hi").ToPhoneNumber "+1555" =
      { TextMessage "hi" with recipient := { id := "", phoneNumber := "+1555" } } ∧
    identifiersSet (((TextMessage "hi").To "USER_ID").recipient) = 1 ∧
    identifiersSet (((TextMessage "hi").ToPhoneNumber "+1555").recipient) = 1 := by
  obtain ⟨h1, h2, h3, h4⟩ :=
    To_and_ToPhoneNumber_set_one_identifier (TextMessage "hi") "USER_ID" "+1555"
  exact ⟨h1, h2, h3 (by decide), h4 (by decide)⟩

/-- C2: `ButtonTemplateMessage text buttons` produces a SendRequest
whose attachment has type "template", whose payload has template type
"button" and the given text, and whose button list is exactly the given
list, for button lists of any length. -/
theorem ButtonTemplateMessage_shape (text : String) (buttons : List Button) :
    (ButtonTemplateMessage text buttons).message.attachment =
      some
        { type := "template"
          payload := AttachmentPayload.button
            { templateType := "button", text := text, buttons := buttons } } ∧
    (ButtonTemplateMessage text buttons).message.text = "" := by
  exact ⟨rfl, rfl⟩

/-- C3: `TextMessage t` produces a SendRequest whose message has text
`t` and no attachment — the message record holds exactly those two
fields, so no other message field is populated. -/
theorem TextMessage_shape (t : String) :
    (TextMessage t).message = { text := t, attachment := none } :=
  rfl

/-- C4: `ImageMessage u` produces a SendRequest whose message carries an
attachment of type "image" with a media payload holding url `u`, and an
empty (absent) text field. -/
theorem ImageMessage_shape (u : String) :
    (ImageMessage u).message =
      { text := ""
        attachment := some
          { type := "image", payload := AttachmentPayload.media { url := u } } } :=
  rfl

/-- C5: the three notification-priority setters set the
notification-type field to exactly "REGULAR", "SILENT_PUSH" and
"NO_PUSH" respectively, each returning the same request with only that
field updated. -/
theorem notification_setters_values (sr : SendRequest) :
    sr.Regular = { sr with notificationType := "REGULAR" } ∧
    sr.SilentPush = { sr with notificationType := "SILENT_PUSH" } ∧
    sr.NoPush = { sr with notificationType := "NO_PUSH" } :=
  ⟨rfl, rfl, rfl⟩

/-- C6: each notification-priority setter is idempotent, and composing
two different setters leaves the value written by the last one (last
write wins). -/
theorem notification_setters_idempotent_last_write_wins (sr : SendRequest) :
    sr.Regular.Regular = sr.Regular ∧
    sr.SilentPush.SilentPush = sr.SilentPush ∧
    sr.NoPush.NoPush = sr.NoPush ∧
    sr.Regular.SilentPush = sr.SilentPush ∧
    sr.Regular.NoPush = sr.NoPush ∧
    sr.SilentPush.Regular = sr.Regular ∧
    sr.SilentPush.NoPush = sr.NoPush ∧
    sr.NoPush.Regular = sr.Regular ∧
    sr.NoPush.SilentPush = sr.SilentPush :=
  ⟨rfl, rfl, rfl, rfl, rfl, rfl, rfl, rfl, rfl⟩

/-- C10: each fluent mutator changes only its designated field: the two
recipient setters leave Message and NotificationType unchanged, and the
three notification-priority setters leave Recipient and Message
unchanged; in particular no mutator modifies the Message. -/
theorem mutators_frame (sr : SendRequest) (id p : String) :
    (sr.To id).message = sr.message ∧
    (sr.To id).notificationType = sr.notificationType ∧
    (sr.ToPhoneNumber p).message = sr.message ∧
    (sr.ToPhoneNumber p).notificationType = sr.notificationType ∧
    sr.Regular.recipient = sr.recipient ∧
    sr.Regular.message = sr.message ∧
    sr.SilentPush.recipient = sr.recipient ∧
    sr.SilentPush.message = sr.message ∧
    sr.NoPush.recipient = sr.recipient ∧
    sr.NoPush.message = sr.message :=
  ⟨rfl, rfl, rfl, rfl, rfl, rfl, rfl, rfl, rfl, rfl⟩

/-- A JSON value, the wire format the spec's external-interface section
fixes for the model.  The repository itself contains no serializer (the
Go code only declares `json:"..."` field tags), so the wire layer below
is modelled from the spec. -/
inductive Json where
  | null
  | str (s : String)
  | num (n : Int)
  | arr (elems : List Json)
  | obj (fields : List (String × Json))
deriving Repr

/-- First value bound to a key in a JSON object field list. -/
def lookupField : List (String × Json) → String → Option Json
  | [], _ => none
  | (k, v) :: rest, key => if k = key then some v else lookupField rest key

/-- Field access on a JSON value: an object yields its binding for the
key, anything else yields nothing. -/
def Json.getField : Json → String → Option Json
  | .obj fields, key => lookupField fields key
  | _, _ => none

/-- String content of a JSON value, when it is a string. -/
def Json.asStr : Json → Option String
  | .str s => some s
  | _ => none

/-- Integer content of a JSON value, when it is a number. -/
def Json.asInt : Json → Option Int
  | .num n => some n
  | _ => none

/-- Element list of a JSON value, when it is an array. -/
def Json.asArr : Json → Option (List Json)
  | .arr elems => some elems
  | _ => none

/-- An optional wire field: emitted only when the value is present. -/
def optField {α : Type} (key : String) (f : α → Json) : Option α → List (String × Json)
  | none => []
  | some v => [(key, f v)]

/-- An `omitempty` string wire field: emitted only when non-empty. -/
def strField (key : String) (s : String) : List (String × Json) :=
  if s = "" then [] else [(key, Json.str s)]

/-- Modelled from the spec: wire encoding of `Principal` per the inbound
webhook shape `sender:\x7bid\x7d` / `recipient:\x7bid\x7d`. -/
def encodePrincipal (p : Principal) : Json :=
  .obj [("id", .str p.id)]

/-- Modelled from the spec: wire encoding of a `CallbackAttachment`
(type + url payload). -/
def encodeCallbackAttachment (a : CallbackAttachment) : Json :=
  .obj [("type", .str a.type), ("payload", .obj [("url", .str a.payload.url)])]

/-- Modelled from the spec: wire encoding of a `CallbackMessage` under
the source's `mid` / `seq` / `text` / `attachments` field tags; an
empty attachment list (a nil Go slice) is omitted. -/
def encodeCallbackMessage (m : CallbackMessage) : Json :=
  .obj ([("mid", .str m.messageId), ("seq", .num m.sequence),
         ("text", .str m.text)] ++
    (if m.attachments.isEmpty then []
     else [("attachments", .arr (m.attachments.map encodeCallbackAttachment))]))

/-- Modelled from the spec: wire encoding of a `Delivery` under the
source's `mids` / `watermark` / `seq` field tags. -/
def encodeDelivery (d : Delivery) : Json :=
  .obj [("mids", .arr (d.messageIds.map Json.str)),
        ("watermark", .num d.watermark), ("seq", .num d.sequence)]

/-- Modelled from the spec: wire encoding of a `Postback`. -/
def encodePostback (p : Postback) : Json :=
  .obj [("payload", .str p.payload)]

/-- Modelled from the spec: wire encoding of an `OptIn`. -/
def encodeOptIn (o : OptIn) : Json :=
  .obj [("ref", .str o.ref)]

/-- Modelled from the spec: wire encoding of a `MessagingEntry` per the
inbound shape `\x7bsender, recipient, timestamp, message?, delivery?,
postback?, optin?\x7d` — each interaction field appears only when
populated. -/
def encodeMessagingEntry (m : MessagingEntry) : Json :=
  .obj ([("sender", encodePrincipal m.sender),
         ("recipient", encodePrincipal m.recipient),
         ("timestamp", .num m.timestamp)] ++
    optField "message" encodeCallbackMessage m.message ++
    optField "delivery" encodeDelivery m.delivery ++
    optField "postback" encodePostback m.postback ++
    optField "optin" encodeOptIn m.optin)

/-- Modelled from the spec: wire encoding of an `Entry` per the inbound
shape `\x7bid, time, messaging: [...]\x7d`. -/
def encodeEntry (e : Entry) : Json :=
  .obj [("id", .str e.pageId), ("time", .num e.time),
        ("messaging", .arr (e.messaging.map encodeMessagingEntry))]

/-- Modelled from the spec: wire encoding of a `Callback` per the
inbound shape `\x7bobject, entry: [...]\x7d`. -/
def encodeCallback (cb : Callback) : Json :=
  .obj [("object", .str cb.object), ("entry", .arr (cb.entries.map encodeEntry))]

/-- Decode an optional wire field: an absent field is a present `none`;
a present field must decode. -/
def decodeOpt {α : Type} (f : Json → Option α) : Option Json → Option (Option α)
  | none => some none
  | some j => (f j).map some

/-- Modelled from the spec: decoding of a `Principal` from the wire. -/
def decodePrincipal (j : Json) : Option Principal := do
  let id ← (j.getField "id").bind Json.asStr
  pure { id := id }

/-- Modelled from the spec: decoding of a `CallbackAttachment` from the
wire. -/
def decodeCallbackAttachment (j : Json) : Option CallbackAttachment := do
  let t ← (j.getField "type").bind Json.asStr
  let p ← j.getField "payload"
  let u ← (p.getField "url").bind Json.asStr
  pure { type := t, payload := { url := u } }

/-- Modelled from the spec: decoding of a `CallbackMessage` from the
wire; a missing `text` or `attachments` field leaves the Go zero value
(empty string, nil slice). -/
def decodeCallbackMessage (j : Json) : Option CallbackMessage := do
  let mid ← (j.getField "mid").bind Json.asStr
  let seq ← (j.getField "seq").bind Json.asInt
  let text := ((j.getField "text").bind Json.asStr).getD ""
  let atts ← match j.getField "attachments" with
    | none => some []
    | some a => do
        let elems ← a.asArr
        elems.mapM decodeCallbackAttachment
  pure { messageId := mid, sequence := seq, text := text, attachments := atts }

/-- Modelled from the spec: decoding of a `Delivery` from the wire; a
missing `mids` field leaves the nil slice. -/
def decodeDelivery (j : Json) : Option Delivery := do
  let mids ← match j.getField "mids" with
    | none => some []
    | some a => do
        let elems ← a.asArr
        elems.mapM Json.asStr
  let w ← (j.getField "watermark").bind Json.asInt
  let s ← (j.getField "seq").bind Json.asInt
  pure { messageIds := mids, watermark := w, sequence := s }

/-- Modelled from the spec: decoding of a `Postback` from the wire. -/
def decodePostback (j : Json) : Option Postback := do
  let p ← (j.getField "payload").bind Json.asStr
  pure { payload := p }

/-- Modelled from the spec: decoding of an `OptIn` from the wire. -/
def decodeOptIn (j : Json) : Option OptIn := do
  let r ← (j.getField "ref").bind Json.asStr
  pure { ref := r }

/-- Modelled from the spec: decoding of a `MessagingEntry` from the
wire; each of the four interaction fields decodes to `none` when
absent, and a missing `timestamp` leaves the Go zero value. -/
def decodeMessagingEntry (j : Json) : Option MessagingEntry := do
  let s ← (j.getField "sender").bind decodePrincipal
  let r ← (j.getField "recipient").bind decodePrincipal
  let ts := ((j.getField "timestamp").bind Json.asInt).getD 0
  let msg ← decodeOpt decodeCallbackMessage (j.getField "message")
  let del ← decodeOpt decodeDelivery (j.getField "delivery")
  let pb ← decodeOpt decodePostback (j.getField "postback")
  let oi ← decodeOpt decodeOptIn (j.getField "optin")
  pure { sender := s, recipient := r, timestamp := ts,
         message := msg, delivery := del, postback := pb, optin := oi }

/-- Modelled from the spec: decoding of an `Entry` from the wire; a
missing `messaging` field leaves the nil slice. -/
def decodeEntry (j : Json) : Option Entry := do
  let pid ← (j.getField "id").bind Json.asStr
  let t ← (j.getField "time").bind Json.asInt
  let ms ← match j.getField "messaging" with
    | none => some []
    | some a => do
        let elems ← a.asArr
        elems.mapM decodeMessagingEntry
  pure { pageId := pid, time := t, messaging := ms }

/-- Modelled from the spec: decoding of a `Callback` from the wire
shape `\x7bobject, entry: [...]\x7d`. -/
def decodeCallback (j : Json) : Option Callback := do
  let o ← (j.getField "object").bind Json.asStr
  let es ← (j.getField "entry").bind Json.asArr
  let entries ← es.mapM decodeEntry
  pure { object := o, entries := entries }

/-- C7: encoding then decoding a Callback holding one Entry with one
MessagingEntry whose only populated variant is a CallbackMessage
carrying text only (no attachments) recovers the Callback exactly, so
the decoded MessagingEntry is structurally equal to the original and
its delivery, postback and optin fields are absent. -/
theorem callback_roundtrip (object pageId sid rid mid text : String)
    (time ts seq : Int) :
    decodeCallback (encodeCallback
        { object := object
          entries := [{ pageId := pageId
                        time := time
                        messaging := [{ sender := { id := sid }
                                        recipient := { id := rid }
                                        timestamp := ts
                                        message := some { messageId := mid
                                                          sequence := seq
                                                          text := text
                                                          attachments := [] }
                                        delivery := none
                                        postback := none
                                        optin := none }] }] }) =
      some
        { object := object
          entries := [{ pageId := pageId
                        time := time
                        messaging := [{ sender := { id := sid }
                                        recipient := { id := rid }
                                        timestamp := ts
                                        message := some { messageId := mid
                                                          sequence := seq
                                                          text := text
                                                          attachments := [] }
                                        delivery := none
                                        postback := none
                                        optin := none }] }] } :=
  rfl

/-- ValidationError names a required field found absent when a record
is encoded for transmission.  Modelled from the spec: the repository
declares `binding:"required"` markers but contains no validator. -/
structure ValidationError where
  field : String
deriving Repr, DecidableEq

/-- Modelled from the spec: wire encoding of a `Button` under the
source's field tags, with `url` and `payload` omitted when empty. -/
def encodeButton (b : Button) : Json :=
  .obj ([("type", .str b.type), ("title", .str b.title)] ++
    strField "url" b.url ++ strField "payload" b.payload)

/-- Modelled from the spec: wire encoding of the attachment payload —
a media payload as `\x7burl\x7d`, a button payload as `\x7btemplate_type, text,
buttons\x7d`. -/
def encodeAttachmentPayload : AttachmentPayload → Json
  | .media p => .obj [("url", .str p.url)]
  | .button p =>
    .obj [("template_type", .str p.templateType), ("text", .str p.text),
          ("buttons", .arr (p.buttons.map encodeButton))]

/-- Modelled from the spec: wire encoding of an `Attachment`. -/
def encodeAttachment (a : Attachment) : Json :=
  .obj [("type", .str a.type), ("payload", encodeAttachmentPayload a.payload)]

/-- Modelled from the spec: wire encoding of a `Message` per the shape
`\x7btext?, attachment?\x7d`. -/
def encodeMessage (m : Message) : Json :=
  .obj (strField "text" m.text ++ optField "attachment" encodeAttachment m.attachment)

/-- Modelled from the spec: wire encoding of a `Recipient` per the
shape `\x7bid?, phone_number?\x7d`. -/
def encodeRecipient (r : Recipient) : Json :=
  .obj (strField "id" r.id ++ strField "phone_number" r.phoneNumber)

/-- Modelled from the spec: encoding a `SendRequest` for transmission.
The repository contains no encoder or validator; per the spec the
required-field markers are checked once, at encode time, each absence
producing a ValidationError naming the missing field — in particular a
recipient with neither identifier set is rejected as "recipient", and
a message with neither text nor attachment set as "message". -/
def encodeSendRequest (sr : SendRequest) : Except ValidationError Json :=
  if sr.recipient.id = "" ∧ sr.recipient.phoneNumber = "" then
    .error { field := "recipient" }
  else if sr.message.text = "" ∧ sr.message.attachment = none then
    .error { field := "message" }
  else
    .ok (.obj ([("recipient", encodeRecipient sr.recipient),
                ("message", encodeMessage sr.message)] ++
      strField "notification_type" sr.notificationType))

/-- C8: encoding a SendRequest in which both recipient-identifier
fields are absent fails with a ValidationError naming the field
"recipient"; the check is part of the encode step itself. -/
theorem encodeSendRequest_missing_recipient (sr : SendRequest)
    (hid : sr.recipient.id = "") (hph : sr.recipient.phoneNumber = "") :
    encodeSendRequest sr = Except.error { field := "recipient" } := by
  simp [encodeSendRequest, hid, hph]

/-- C8 (witness): a freshly built text request carries no recipient
identifier, and encoding it fails naming "recipient". -/
theorem encodeSendRequest_missing_recipient_witness :
    encodeSendRequest (TextMessage "hello") =
      Except.error { field := "recipient" } :=
  encodeSendRequest_missing_recipient (TextMessage "hello") rfl rfl

/-- Modelled from the spec: decoding a wire `SendError` object; any
missing field decodes to the Go zero value rather than failing. -/
def decodeSendError (j : Json) : SendError :=
  { message := ((j.getField "message").bind Json.asStr).getD ""
    type := ((j.getField "type").bind Json.asStr).getD ""
    code := ((j.getField "code").bind Json.asInt).getD 0
    errorData := ((j.getField "error_data").bind Json.asStr).getD ""
    fbTraceId := ((j.getField "fbtrace_id").bind Json.asStr).getD "" }

/-- Modelled from the spec: decoding a wire `SendResponse` object of
shape `\x7brecipient_id, message_id, error?\x7d`; missing `recipient_id` or
`message_id` decode to the empty string rather than failing, and the
error object is decoded exactly when present. -/
def decodeSendResponse : Json → Option SendResponse
  | .obj fields =>
    some { recipientId := ((lookupField fields "recipient_id").bind Json.asStr).getD ""
           messageId := ((lookupField fields "message_id").bind Json.asStr).getD ""
           error := (lookupField fields "error").map decodeSendError }
  | _ => none

/-- C9: decoding a wire SendResponse whose error object is populated
succeeds even with `recipient_id` and `message_id` absent, and yields a
populated SendError carrying the same numeric code and the same trace
id as the wire payload. -/
theorem decodeSendResponse_error (message type errorData traceId : String)
    (code : Int) :
    decodeSendResponse
        (Json.obj [("error", Json.obj
          [("message", Json.str message), ("type", Json.str type),
           ("code", Json.num code), ("error_data", Json.str errorData),
           ("fbtrace_id", Json.str traceId)])]) =
      some { recipientId := ""
             messageId := ""
             error := some { message := message
                             type := type
                             code := code
                             errorData := errorData
                             fbTraceId := traceId } } :=
  rfl

end Fbmessenger
